import Mathlib

/-!
A shallow embedding of `src/public/vega_view/vega_loader.js` (the query-templating
core created by `createVegaLoader(es, timefilter, dashboardContext, enableExternalUrls)`).

JS values are modelled by the `JsValue` tree (JS numbers as `ℚ`; the claims under
study involve only exact arithmetic, never float rounding).  JS truthiness is
`isTruthy`.  The memoized `_timeBounds` closure variable is modelled by an explicit
`Cache := Option TimeBounds` value threaded through every function that can reach
`getTimeRange`; the `timefilter.getBounds()` collaborator is modelled by a
`TimeBounds` argument `tf` (the value the provider would return if queried now).
Thrown `Error`s become `Except Err`.
-/

namespace VegaLoader

/-- Marker `'%context_query%'` (source line 5). -/
def SIMPLE_QUERY : String := "%context_query%"

/-- Marker `'%timefilter%'` (source line 6). -/
def TIMEFILTER : String := "%timefilter%"

/-- Marker `'%autointerval%'` (source line 7). -/
def AUTOINTERVAL : String := "%autointerval%"

/-- Marker `'%dashboard_context-must_clause%'` (source line 8). -/
def MUST_CLAUSE : String := "%dashboard_context-must_clause%"

/-- Marker `'%dashboard_context-must_not_clause%'` (source line 9). -/
def MUST_NOT_CLAUSE : String := "%dashboard_context-must_not_clause%"

/-- JSON-like JS values: `null`, booleans, numbers (as `ℚ`), strings, arrays and
objects (ordered key/value lists, keys unique in all values we build). -/
inductive JsValue where
  | vnull
  | vbool (b : Bool)
  | vnum (n : ℚ)
  | vstr (s : String)
  | varr (xs : List JsValue)
  | vobj (fields : List (String × JsValue))

/-- The error taxonomy of the loader (each `throw new Error(...)` site, plus the
`TypeErr` a JS engine raises at the unguarded member accesses of line 31). -/
inductive Err where
  | ConflictingQuery
  | InvalidContextQueryField
  | InvalidShift
  | UnknownUnit
  | InvalidAutoInterval
  | InvalidTimefilterValue
  | UnexpectedUrlObject
  | ExternalUrlsDisabled
  | TypeErr
deriving DecidableEq

/-- JS truthiness of a value (`NaN` does not arise in `ℚ`). -/
def isTruthy : JsValue → Bool
  | .vnull => false
  | .vbool b => b
  | .vnum n => n ≠ 0
  | .vstr s => s ≠ ""
  | .varr _ => true
  | .vobj _ => true

/-- First binding of a key in an object's field list (JS property lookup). -/
def lookupProp : List (String × JsValue) → String → Option JsValue
  | [], _ => none
  | (k, v) :: rest, key => if k = key then some v else lookupProp rest key

/-- Property read `o[k]`: `some` value for an own property of an object, `none` (= JS
`undefined`) for a missing key or a non-object receiver. -/
def getProp : JsValue → String → Option JsValue
  | .vobj fs, k => lookupProp fs k
  | _, _ => none

/-- JS assignment `o[k] = v` on a field list: updates the key in place if it
exists (keeping its position), appends it otherwise. -/
def setPropL : List (String × JsValue) → String → JsValue → List (String × JsValue)
  | [], k, v => [(k, v)]
  | (k1, v1) :: rest, k, v =>
    if k1 = k then (k, v) :: rest else (k1, v1) :: setPropL rest k v

/-- JS `delete o[k]` on a field list. -/
def delPropL (fs : List (String × JsValue)) (k : String) : List (String × JsValue) :=
  fs.filter (fun p => p.1 ≠ k)

/-- JS assignment `o[k] = v` (a silent no-op on non-objects, as in sloppy mode). -/
def setProp : JsValue → String → JsValue → JsValue
  | .vobj fs, k, v => .vobj (setPropL fs k v)
  | o, _, _ => o

/-- JS `delete o[k]`. -/
def delProp : JsValue → String → JsValue
  | .vobj fs, k => .vobj (delPropL fs k)
  | o, _ => o

/-- Value of `o[k]` when it is truthy, `none` otherwise — the shape of every
`if (o.k)` guard in the source. -/
def truthyProp (o : JsValue) (k : String) : Option JsValue :=
  match getProp o k with
  | some v => if isTruthy v then some v else none
  | none => none

/-- The `{min, max}` epoch-millisecond pair built at source lines 217-220. -/
structure TimeBounds where
  min : ℚ
  max : ℚ
deriving DecidableEq

/-- The `_timeBounds` memo (source line 212): `none` before the first
`getTimeRange()` call on a loader, `some b` afterwards. -/
abbrev Cache := Option TimeBounds

/-- The `type` argument of `getTimeBound` — the strings `'min'`/`'max'`
the source passes there. -/
inductive Which where
  | wmin
  | wmax
deriving DecidableEq

/-- Projection `bounds[type]` (source line 133). -/
def TimeBounds.get (b : TimeBounds) : Which → ℚ
  | .wmin => b.min
  | .wmax => b.max

/-- Function `getTimeRange` (source lines 213-222): returns the memoized bounds when the
cache is set, otherwise reads the provider `tf` and memoizes it.  The returned
`Cache` is the value of `_timeBounds` after the call. -/
def getTimeRange (tf : TimeBounds) (c : Cache) : TimeBounds × Cache :=
  match c with
  | some b => (b, some b)
  | none => (tf, some tf)

/-- The `switch (opts.unit || 'd')` table of source lines 141-164: milliseconds
per unit for a recognized unit value, `none` for the `default` (throwing) case. -/
def unitMultiplier : JsValue → Option ℚ
  | .vstr "w" | .vstr "week" => some (1000 * 60 * 60 * 24 * 7)
  | .vstr "d" | .vstr "day" => some (1000 * 60 * 60 * 24)
  | .vstr "h" | .vstr "hour" => some (1000 * 60 * 60)
  | .vstr "m" | .vstr "minute" => some (1000 * 60)
  | .vstr "s" | .vstr "second" => some 1000
  | _ => none

/-- Function `getTimeBound(opts, type)` (source lines 131-169).  `if (opts.shift)` is a
truthiness test; a truthy non-number shift throws (`InvalidShift`), the unit
defaults over falsy values via `opts.unit || 'd'`, and an unrecognized unit
throws (`UnknownUnit`). -/
def getTimeBound (tf : TimeBounds) (opts : JsValue) (w : Which) (c : Cache) :
    Except Err (ℚ × Cache) :=
  let rb := getTimeRange tf c
  let result := rb.1.get w
  match truthyProp opts "shift" with
  | none => .ok (result, rb.2)
  | some sv =>
    match sv with
    | .vnum shift =>
      let u := match truthyProp opts "unit" with
        | some uv => uv
        | none => .vstr "d"
      match unitMultiplier u with
      | some m => .ok (result + shift * m, rb.2)
      | none => .error .UnknownUnit
    | _ => .error .InvalidShift

/-- Function `createRangeFilter(obj)` (source lines 121-129): sets `gte`, `lte`,
`format`, deletes the `%timefilter%`, `shift` and `unit` keys, and returns the
(mutated) object. -/
def createRangeFilter (tf : TimeBounds) (obj : JsValue) (c : Cache) :
    Except Err (JsValue × Cache) :=
  match getTimeBound tf obj .wmin c with
  | .error e => .error e
  | .ok (gte, c1) =>
    match getTimeBound tf obj .wmax c1 with
    | .error e => .error e
    | .ok (lte, c2) =>
      let o1 := setProp obj "gte" (.vnum gte)
      let o2 := setProp o1 "lte" (.vnum lte)
      let o3 := setProp o2 "format" (.vstr "epoch_millis")
      let o4 := delProp o3 TIMEFILTER
      let o5 := delProp o4 "shift"
      let o6 := delProp o5 "unit"
      .ok (o6, c2)

/-- Function `roundInterval(interval)` (source lines 175-210): the `switch (true)`
chain of inclusive upper bounds, with a strict `<` for the `'30d'` case and
`'1y'` as the fallback. -/
def roundInterval (interval : ℚ) : String :=
  if interval ≤ 500 then "100ms"
  else if interval ≤ 5000 then "1s"
  else if interval ≤ 7500 then "5s"
  else if interval ≤ 15000 then "10s"
  else if interval ≤ 45000 then "30s"
  else if interval ≤ 180000 then "1m"
  else if interval ≤ 450000 then "5m"
  else if interval ≤ 1200000 then "10m"
  else if interval ≤ 2700000 then "30m"
  else if interval ≤ 7200000 then "1h"
  else if interval ≤ 21600000 then "3h"
  else if interval ≤ 86400000 then "12h"
  else if interval ≤ 604800000 then "24h"
  else if interval ≤ 1814400000 then "1w"
  else if interval < 3628800000 then "30d"
  else "1y"

/-- Test `isQuery && (item === MUST_CLAUSE || item === MUST_NOT_CLAUSE)` of source
line 57, returning the `ctxTag` of line 58 when the element is a clause marker. -/
def clauseMarkerTag : JsValue → Option String
  | .vstr s =>
    if s = MUST_CLAUSE then some "must"
    else if s = MUST_NOT_CLAUSE then some "must_not"
    else none
  | _ => none

/-- The guarded lookup `ctx && ctx.bool && ctx.bool[ctxTag]` of source line 60:
`some` exactly when the whole chain is truthy. -/
def boolClause (dashCtx : JsValue) (tag : String) : Option JsValue :=
  if isTruthy dashCtx then
    match getProp dashCtx "bool" with
    | some b =>
      if isTruthy b then
        match getProp b tag with
        | some cl => if isTruthy cl then some cl else none
        | none => none
      else none
    | none => none
  else none

mutual

/-- Function `injectQueryContextVars(obj, isQuery)` (source lines 51-114).  The guard
`obj && typeof obj === 'object'` selects exactly arrays and objects (`null` is
`typeof 'object'` but falsy); every other value is left untouched. -/
def injectQueryContextVars (tf : TimeBounds) (dashCtx : JsValue) (isQuery : Bool) :
    JsValue → Cache → Except Err (JsValue × Cache)
  | .varr xs, c =>
    match walkArray tf dashCtx isQuery xs c with
    | .ok (ys, c1) => .ok (.varr ys, c1)
    | .error e => .error e
  | .vobj fs, c =>
    match walkFields tf dashCtx isQuery fs c with
    | .ok (gs, c1) => .ok (.vobj gs, c1)
    | .error e => .error e
  | v, c => .ok (v, c)
termination_by structural v _ => v

/-- The cursor loop over an array (source lines 55-75).  A clause-marker element
(only when `isQuery`) is spliced out for the dashboard context's matching
`bool` field: a sequence is spliced element-for-elements (the cursor skips past
the inserted elements, so they are not reprocessed), a single fragment replaces
the marker one-for-one, and a falsy/absent clause removes the marker (the
cursor stays, so the element shifting into the slot is processed next). -/
def walkArray (tf : TimeBounds) (dashCtx : JsValue) (isQuery : Bool) :
    List JsValue → Cache → Except Err (List JsValue × Cache)
  | [], c => .ok ([], c)
  | item :: rest, c =>
    match (if isQuery then clauseMarkerTag item else none) with
    | some tag =>
      match boolClause dashCtx tag with
      | some (.varr items) =>
        match walkArray tf dashCtx isQuery rest c with
        | .ok (ys, c1) => .ok (items ++ ys, c1)
        | .error e => .error e
      | some v =>
        match walkArray tf dashCtx isQuery rest c with
        | .ok (ys, c1) => .ok (v :: ys, c1)
        | .error e => .error e
      | none => walkArray tf dashCtx isQuery rest c
    | none =>
      match injectQueryContextVars tf dashCtx isQuery item c with
      | .error e => .error e
      | .ok (item1, c1) =>
        match walkArray tf dashCtx isQuery rest c1 with
        | .ok (ys, c2) => .ok (item1 :: ys, c2)
        | .error e => .error e
termination_by structural xs _ => xs

/-- The `for (const prop of Object.keys(obj))` loop over an object's fields
(source lines 77-111).  The guard `if (!subObj || typeof obj !== 'object')`
of line 79 reduces to `!subObj` (inside this branch `obj` is always an object,
so the second disjunct is constantly false): falsy values are skipped.  Then
the `interval`/`%autointerval%` rule (lines 82-92), else the `%timefilter%`
switch (lines 95-110). -/
def walkFields (tf : TimeBounds) (dashCtx : JsValue) (isQuery : Bool) :
    List (String × JsValue) → Cache → Except Err (List (String × JsValue) × Cache)
  | [], c => .ok ([], c)
  | (prop, subObj) :: rest, c =>
    if isTruthy subObj = false then
      match walkFields tf dashCtx isQuery rest c with
      | .ok (gs, c1) => .ok ((prop, subObj) :: gs, c1)
      | .error e => .error e
    else
      match (if prop = "interval" then truthyProp subObj AUTOINTERVAL else none) with
      | some (.vbool true) =>
        -- `size = 50` default (source line 85)
        let rb := getTimeRange tf c
        match walkFields tf dashCtx isQuery rest rb.2 with
        | .ok (gs, c2) =>
          .ok ((prop, .vstr (roundInterval ((rb.1.max - rb.1.min) / 50))) :: gs, c2)
        | .error e => .error e
      | some (.vnum n) =>
        let rb := getTimeRange tf c
        match walkFields tf dashCtx isQuery rest rb.2 with
        | .ok (gs, c2) =>
          .ok ((prop, .vstr (roundInterval ((rb.1.max - rb.1.min) / n))) :: gs, c2)
        | .error e => .error e
      | some _ => .error .InvalidAutoInterval
      | none =>
        match getProp subObj TIMEFILTER with
        | some (.vstr "min") =>
          match getTimeBound tf subObj .wmin c with
          | .error e => .error e
          | .ok (t, c1) =>
            match walkFields tf dashCtx isQuery rest c1 with
            | .ok (gs, c2) => .ok ((prop, .vnum t) :: gs, c2)
            | .error e => .error e
        | some (.vstr "max") =>
          match getTimeBound tf subObj .wmax c with
          | .error e => .error e
          | .ok (t, c1) =>
            match walkFields tf dashCtx isQuery rest c1 with
            | .ok (gs, c2) => .ok ((prop, .vnum t) :: gs, c2)
            | .error e => .error e
        | some (.vbool true) =>
          match createRangeFilter tf subObj c with
          | .error e => .error e
          | .ok (o1, c1) =>
            match walkFields tf dashCtx isQuery rest c1 with
            | .ok (gs, c2) => .ok ((prop, o1) :: gs, c2)
            | .error e => .error e
        | none =>
          match injectQueryContextVars tf dashCtx isQuery subObj c with
          | .error e => .error e
          | .ok (v1, c1) =>
            match walkFields tf dashCtx isQuery rest c1 with
            | .ok (gs, c2) => .ok ((prop, v1) :: gs, c2)
            | .error e => .error e
        | some _ => .error .InvalidTimefilterValue
termination_by structural fs _ => fs

end

example :
    injectQueryContextVars ⟨1000, 9000⟩ .vnull true
      (.vobj [("interval", .vobj [(AUTOINTERVAL, .vbool true)])]) none =
    .ok (.vobj [("interval", .vstr "100ms")], some ⟨1000, 9000⟩) := by
  norm_num [injectQueryContextVars, walkFields, getTimeRange, truthyProp, getProp,
    lookupProp, AUTOINTERVAL, isTruthy, roundInterval]

example :
    injectQueryContextVars ⟨1000, 9000⟩ .vnull true
      (.vobj [("a", .varr [.vstr "x", .vnull])]) none =
    .ok (.vobj [("a", .varr [.vstr "x", .vnull])], none) := rfl

/-- Assignment `uri.body = uri.body || {}` (source line 12): the body object the rest of
`queryEsData` works on. -/
def bodyInit (uri : List (String × JsValue)) : JsValue :=
  match lookupProp uri "body" with
  | some b => if isTruthy b then b else .vobj []
  | none => .vobj []

/-- The evaluation of the callee `body.query.bool.must.push` at source line 31,
where `body.query` is the freshly assigned `dashboardContext()` document.  A JS
engine resolves the member chain before calling: a `null`/`undefined` link or a
non-function `push` raises a `TypeError`.  On success, returns the elements of
the `must` array. -/
def mustArray (ctx : JsValue) : Except Err (List JsValue) :=
  match ctx with
  | .vnull => .error .TypeErr
  | _ =>
    match getProp ctx "bool" with
    | none => .error .TypeErr
    | some b =>
      match b with
      | .vnull => .error .TypeErr
      | _ =>
        match getProp b "must" with
        | none => .error .TypeErr
        | some m =>
          match m with
          | .varr xs => .ok xs
          | _ => .error .TypeErr

/-- The mutation `ctx.bool.must.push(...)` seen from the outside: the context
document with its `bool.must` replaced (only called after `mustArray`
succeeded, so `bool` exists). -/
def setMust (ctx : JsValue) (m : JsValue) : JsValue :=
  match getProp ctx "bool" with
  | some b => setProp ctx "bool" (setProp b "must" m)
  | none => ctx

/-- Call `injectQueryContextVars(body.aggs, false)` followed by `return es.search(uri)`
(source lines 41-43).  The search collaborator is abstracted away: the model's
result is the fully resolved request document handed to `es.search`. -/
def resolveAggsAndSearch (tf : TimeBounds) (dashCtx : JsValue)
    (uri : List (String × JsValue)) (body : JsValue) (c : Cache) :
    Except Err (List (String × JsValue) × Cache) :=
  match getProp body "aggs" with
  | none => .ok (setPropL uri "body" body, c)
  | some a =>
    match injectQueryContextVars tf dashCtx false a c with
    | .error e => .error e
    | .ok (a1, c1) => .ok (setPropL uri "body" (setProp body "aggs" a1), c1)

/-- Function `queryEsData(uri)` (source lines 11-44).  `uri` is the request envelope's
field list (`queryEsData` is only reached with an object `uri`).  `dashCtx` is
the document `dashboardContext()` returns.  `if (uri[SIMPLE_QUERY])` and
`if (body.query)` are truthiness tests.  The result is the resolved document
passed to `es.search`, paired with the `_timeBounds` memo after the call. -/
def queryEsData (tf : TimeBounds) (dashCtx : JsValue)
    (uri : List (String × JsValue)) (c : Cache) :
    Except Err (List (String × JsValue) × Cache) :=
  let body := bodyInit uri
  match truthyProp (.vobj uri) SIMPLE_QUERY with
  | some field =>
    if isTruthy ((getProp body "query").getD .vnull) then
      .error .ConflictingQuery
    else
      match field with
      | .vbool true =>
        let uri1 := delPropL uri SIMPLE_QUERY
        let body1 := setProp body "query" dashCtx
        resolveAggsAndSearch tf dashCtx uri1 body1 c
      | .vstr s =>
        -- a truthy string is non-empty, so the line 21 validation passes
        let uri1 := delPropL uri SIMPLE_QUERY
        match mustArray dashCtx with
        | .error e => .error e
        | .ok must =>
          match createRangeFilter tf (.vobj [(TIMEFILTER, .vbool true)]) c with
          | .error e => .error e
          | .ok (rf, c1) =>
            let ctx1 :=
              setMust dashCtx (.varr (must ++ [.vobj [("range", .vobj [(s, rf)])]]))
            let body1 := setProp body "query" ctx1
            resolveAggsAndSearch tf dashCtx uri1 body1 c1
      | _ => .error .InvalidContextQueryField
  | none =>
    match getProp body "query" with
    | none => resolveAggsAndSearch tf dashCtx uri body c
    | some q =>
      match injectQueryContextVars tf dashCtx true q c with
      | .error e => .error e
      | .ok (q1, c1) => resolveAggsAndSearch tf dashCtx uri (setProp body "query" q1) c1

/-- JS `typeof` restricted to the values `JsValue` models (`typeof null` is
`'object'`, and arrays are `'object'` too). -/
def jsTypeof : JsValue → String
  | .vnull => "object"
  | .vbool _ => "boolean"
  | .vnum _ => "number"
  | .vstr _ => "string"
  | .varr _ => "object"
  | .vobj _ => "object"

/-- Where `loader.load` sends a request: to `queryEsData`, or to the default
string-URL loader `defaultLoad`. -/
inductive Route where
  | esData (uri : JsValue)
  | defaultLoad (uri : JsValue)

/-- The `loader.load` override (source lines 235-246): an object (by `typeof`)
with `opts.context === 'dataflow'` goes to `queryEsData`; any other context on
an object throws `UnexpectedUrlObject`; a non-object goes to the default
loader only when `enableExternalUrls` is set, else throws
`ExternalUrlsDisabled`. -/
def loaderLoad (enableExternalUrls : Bool) (uri : JsValue) (context : JsValue) :
    Except Err Route :=
  if jsTypeof uri = "object" then
    match context with
    | .vstr "dataflow" => .ok (.esData uri)
    | _ => .error .UnexpectedUrlObject
  else if enableExternalUrls = false then .error .ExternalUrlsDisabled
  else .ok (.defaultLoad uri)

/-!
## Spec-side definitions

These follow the specification's words (not the source) and exist only to be
compared with the source-derived definitions above, or to state hypotheses of
claims ("contains no placeholder markers").
-/

/-- The ordered upper-bound table of spec §4.1, as data: pairs of inclusive
upper bound and bucket name, in the spec's order. -/
def bucketUpperBounds : List (ℚ × String) :=
  [(500, "100ms"), (5000, "1s"), (7500, "5s"), (15000, "10s"), (45000, "30s"),
   (180000, "1m"), (450000, "5m"), (1200000, "10m"), (2700000, "30m"),
   (7200000, "1h"), (21600000, "3h"), (86400000, "12h"), (604800000, "24h"),
   (1814400000, "1w")]

/-- First entry of an ordered bound table whose (inclusive) upper bound admits
`ms`. -/
def lookupBucket (ms : ℚ) : List (ℚ × String) → Option String
  | [] => none
  | (bound, name) :: rest => if ms ≤ bound then some name else lookupBucket ms rest

/-- Modelled from the spec table: `roundInterval` as the spec describes it: the smallest named bucket of the
ordered table (inclusive upper bounds), then the strict `< 3.6288e9 → "30d"`
comparison, then the `"1y"` fallback. -/
def roundIntervalSpec (ms : ℚ) : String :=
  match lookupBucket ms bucketUpperBounds with
  | some name => name
  | none => if ms < 3628800000 then "30d" else "1y"

/-- The five reserved marker strings of the data model (spec §3). -/
def markerStrings : List String :=
  [SIMPLE_QUERY, TIMEFILTER, AUTOINTERVAL, MUST_CLAUSE, MUST_NOT_CLAUSE]

mutual

/-- A document contains no placeholder markers: no object key and no string
leaf anywhere equals one of the reserved marker strings. -/
def noMarkersV : JsValue → Bool
  | .vstr s => decide (s ∉ markerStrings)
  | .varr xs => noMarkersL xs
  | .vobj fs => noMarkersF fs
  | _ => true
termination_by structural v => v

/-- Predicate `noMarkersV` over an array's elements. -/
def noMarkersL : List JsValue → Bool
  | [] => true
  | x :: rest => noMarkersV x && noMarkersL rest
termination_by structural xs => xs

/-- Predicate `noMarkersV` over an object's fields (keys must not be markers either). -/
def noMarkersF : List (String × JsValue) → Bool
  | [] => true
  | (k, v) :: rest => decide (k ∉ markerStrings) && noMarkersV v && noMarkersF rest
termination_by structural fs => fs

end

/-!
## C3 — the interval rounding table
-/

theorem lookupBucket_nil (ms : ℚ) : lookupBucket ms [] = none := rfl

theorem lookupBucket_cons (ms b : ℚ) (nm : String) (rest : List (ℚ × String)) :
    lookupBucket ms ((b, nm) :: rest) = if ms ≤ b then some nm else lookupBucket ms rest := rfl

set_option maxHeartbeats 3200000 in
/-- Claim C3. — `roundInterval` is a pure total function on `ℚ` that returns, for
every input, exactly the bucket named by the ordered upper-bound table of the
spec (`roundIntervalSpec`): inclusive upper bounds `500→"100ms"` through
`1.8144e9→"1w"`, then the strict comparison `< 3.6288e9 → "30d"`, then the
`"1y"` fallback.  The claim restricts attention to finite non-negative inputs;
the equation in fact holds for every rational input, so totality there is
immediate. -/
theorem roundInterval_eq_spec_table : ∀ ms : ℚ, roundInterval ms = roundIntervalSpec ms := by
  intro ms
  unfold roundInterval roundIntervalSpec bucketUpperBounds
  rw [lookupBucket_cons, lookupBucket_cons, lookupBucket_cons, lookupBucket_cons,
    lookupBucket_cons, lookupBucket_cons, lookupBucket_cons, lookupBucket_cons,
    lookupBucket_cons, lookupBucket_cons, lookupBucket_cons, lookupBucket_cons,
    lookupBucket_cons, lookupBucket_cons, lookupBucket_nil]
  by_cases h1 : ms ≤ 500
  · rw [if_pos h1, if_pos h1]
    try rfl
  rw [if_neg h1, if_neg h1]
  by_cases h2 : ms ≤ 5000
  · rw [if_pos h2, if_pos h2]
    try rfl
  rw [if_neg h2, if_neg h2]
  by_cases h3 : ms ≤ 7500
  · rw [if_pos h3, if_pos h3]
    try rfl
  rw [if_neg h3, if_neg h3]
  by_cases h4 : ms ≤ 15000
  · rw [if_pos h4, if_pos h4]
    try rfl
  rw [if_neg h4, if_neg h4]
  by_cases h5 : ms ≤ 45000
  · rw [if_pos h5, if_pos h5]
    try rfl
  rw [if_neg h5, if_neg h5]
  by_cases h6 : ms ≤ 180000
  · rw [if_pos h6, if_pos h6]
    try rfl
  rw [if_neg h6, if_neg h6]
  by_cases h7 : ms ≤ 450000
  · rw [if_pos h7, if_pos h7]
    try rfl
  rw [if_neg h7, if_neg h7]
  by_cases h8 : ms ≤ 1200000
  · rw [if_pos h8, if_pos h8]
    try rfl
  rw [if_neg h8, if_neg h8]
  by_cases h9 : ms ≤ 2700000
  · rw [if_pos h9, if_pos h9]
    try rfl
  rw [if_neg h9, if_neg h9]
  by_cases h10 : ms ≤ 7200000
  · rw [if_pos h10, if_pos h10]
    try rfl
  rw [if_neg h10, if_neg h10]
  by_cases h11 : ms ≤ 21600000
  · rw [if_pos h11, if_pos h11]
    try rfl
  rw [if_neg h11, if_neg h11]
  by_cases h12 : ms ≤ 86400000
  · rw [if_pos h12, if_pos h12]
    try rfl
  rw [if_neg h12, if_neg h12]
  by_cases h13 : ms ≤ 604800000
  · rw [if_pos h13, if_pos h13]
    try rfl
  rw [if_neg h13, if_neg h13]
  by_cases h14 : ms ≤ 1814400000
  · rw [if_pos h14, if_pos h14]
    try rfl
  rw [if_neg h14, if_neg h14]
  try rfl

/-!
## C8 — marker-free documents are fixed points of the walker
-/

theorem clauseMarkerTag_eq_none {v : JsValue} (h : noMarkersV v = true) :
    clauseMarkerTag v = none := by
  cases v with
  | vstr s =>
    unfold noMarkersV at h
    have hs : s ∉ markerStrings := of_decide_eq_true h
    simp only [markerStrings, List.mem_cons, List.not_mem_nil, or_false, not_or] at hs
    simp only [clauseMarkerTag]
    rw [if_neg hs.2.2.2.1, if_neg hs.2.2.2.2]
  | vnull => rfl
  | vbool b => rfl
  | vnum n => rfl
  | varr xs => rfl
  | vobj fs => rfl

theorem lookupProp_marker_none :
    ∀ fs : List (String × JsValue), noMarkersF fs = true →
      ∀ key, key ∈ markerStrings → lookupProp fs key = none := by
  intro fs
  induction fs with
  | nil => intro _ key _; rfl
  | cons kv rest ih =>
    obtain ⟨k, v⟩ := kv
    intro h key hkey
    unfold noMarkersF at h
    simp only [Bool.and_eq_true] at h
    obtain ⟨⟨hk, _⟩, hrest⟩ := h
    have hk : k ∉ markerStrings := of_decide_eq_true hk
    unfold lookupProp
    rw [if_neg (fun (he : k = key) => hk (he ▸ hkey))]
    exact ih hrest key hkey

theorem getProp_marker_none {v : JsValue} (h : noMarkersV v = true)
    {key : String} (hkey : key ∈ markerStrings) : getProp v key = none := by
  cases v with
  | vobj fs => exact lookupProp_marker_none fs h key hkey
  | vnull => rfl
  | vbool b => rfl
  | vnum n => rfl
  | vstr s => rfl
  | varr xs => rfl

theorem truthyProp_marker_none {v : JsValue} (h : noMarkersV v = true)
    {key : String} (hkey : key ∈ markerStrings) : truthyProp v key = none := by
  unfold truthyProp
  rw [getProp_marker_none h hkey]

/-- The walker is the identity (and leaves the time-bounds memo untouched) on
any document containing no marker strings, proved for all three mutually
recursive entry points at once by induction on a size bound. -/
theorem walk_noMarkers_id (tf : TimeBounds) (dashCtx : JsValue) :
    ∀ N : Nat,
      (∀ v : JsValue, sizeOf v ≤ N → noMarkersV v = true →
        ∀ q c, injectQueryContextVars tf dashCtx q v c = .ok (v, c)) ∧
      (∀ xs : List JsValue, sizeOf xs ≤ N → noMarkersL xs = true →
        ∀ q c, walkArray tf dashCtx q xs c = .ok (xs, c)) ∧
      (∀ fs : List (String × JsValue), sizeOf fs ≤ N → noMarkersF fs = true →
        ∀ q c, walkFields tf dashCtx q fs c = .ok (fs, c)) := by
  intro N
  induction N with
  | zero =>
    refine ⟨fun v hv => ?_, fun xs hxs => ?_, fun fs hfs => ?_⟩
    · cases v <;> simp at hv
    · cases xs with
      | nil => intro _ _ _; rfl
      | cons x rest => simp at hxs
    · cases fs with
      | nil => intro _ _ _; rfl
      | cons kv rest => simp at hfs
  | succ n ih =>
    obtain ⟨ihV, ihL, ihF⟩ := ih
    refine ⟨fun v hv hm q c => ?_, fun xs hxs hm q c => ?_, fun fs hfs hm q c => ?_⟩
    · cases v with
      | varr xs =>
        have hsz : sizeOf xs ≤ n := by simp at hv; omega
        unfold injectQueryContextVars
        rw [ihL xs hsz hm q c]
      | vobj fs =>
        have hsz : sizeOf fs ≤ n := by simp at hv; omega
        unfold injectQueryContextVars
        rw [ihF fs hsz hm q c]
      | vnull => rfl
      | vbool b => rfl
      | vnum m => rfl
      | vstr s => rfl
    · cases xs with
      | nil => rfl
      | cons x rest =>
        have hszx : sizeOf x ≤ n := by simp at hxs; omega
        have hszr : sizeOf rest ≤ n := by simp at hxs; omega
        unfold noMarkersL at hm
        simp only [Bool.and_eq_true] at hm
        obtain ⟨hmx, hmr⟩ := hm
        have hclause : (if q then clauseMarkerTag x else none) = none := by
          cases q <;> simp [clauseMarkerTag_eq_none hmx]
        unfold walkArray
        simp only [hclause, ihV x hszx hmx q c, ihL rest hszr hmr q c]
    · cases fs with
      | nil => rfl
      | cons kv rest =>
        obtain ⟨k, subObj⟩ := kv
        have hszv : sizeOf subObj ≤ n := by simp at hfs; omega
        have hszr : sizeOf rest ≤ n := by simp at hfs; omega
        unfold noMarkersF at hm
        simp only [Bool.and_eq_true] at hm
        obtain ⟨⟨hk, hmv⟩, hmr⟩ := hm
        have hauto : (if k = "interval" then truthyProp subObj AUTOINTERVAL else none)
            = none := by
          rw [truthyProp_marker_none hmv (by simp [markerStrings])]
          exact ite_self none
        have htf : getProp subObj TIMEFILTER = none :=
          getProp_marker_none hmv (by simp [markerStrings])
        unfold walkFields
        by_cases hT : isTruthy subObj = false
        · rw [if_pos hT]
          simp only [ihF rest hszr hmr q c]
        · rw [if_neg hT, hauto, htf]
          simp only [ihV subObj hszv hmv q c, ihF rest hszr hmr q c]

/-- Claim C8. — Running the Context Tree Walker (`injectQueryContextVars`, for
either `isQuery` flag) on a document containing no placeholder markers — no
reserved marker string as an object key, array element or string leaf at any
nesting depth — returns the document unchanged (and leaves the time-bounds
memo as it was).  Consequently a second run over an already-resolved,
placeholder-free tree is a no-op. -/
theorem injectQueryContextVars_noMarkers_id (tf : TimeBounds) (dashCtx : JsValue)
    (isQuery : Bool) (v : JsValue) (c : Cache) (h : noMarkersV v = true) :
    injectQueryContextVars tf dashCtx isQuery v c = .ok (v, c) :=
  (walk_noMarkers_id tf dashCtx (sizeOf v)).1 v le_rfl h isQuery c

/-- Claim C8 witness. — A concrete placeholder-free document, nested three levels
deep, is returned unchanged by the walker. -/
theorem injectQueryContextVars_noMarkers_id_witness :
    noMarkersV (.vobj [("bool", .vobj [("must",
      .varr [.vobj [("term", .vobj [("a", .vnum 1)])], .vstr "keep"])])]) = true ∧
    injectQueryContextVars ⟨0, 1000⟩ (.vobj [("bool", .vobj [])]) true
      (.vobj [("bool", .vobj [("must",
        .varr [.vobj [("term", .vobj [("a", .vnum 1)])], .vstr "keep"])])]) none =
    .ok (.vobj [("bool", .vobj [("must",
      .varr [.vobj [("term", .vobj [("a", .vnum 1)])], .vstr "keep"])])], none) :=
  ⟨by decide, injectQueryContextVars_noMarkers_id ⟨0, 1000⟩
    (.vobj [("bool", .vobj [])]) true _ none (by decide)⟩

/-!
## Property lookup over assignment and deletion
-/

theorem lookupProp_setPropL_same (fs : List (String × JsValue)) (k : String) (v : JsValue) :
    lookupProp (setPropL fs k v) k = some v := by
  induction fs with
  | nil => simp [setPropL, lookupProp]
  | cons kv rest ih =>
    obtain ⟨k1, v1⟩ := kv
    by_cases hk : k1 = k <;> simp [setPropL, hk, lookupProp, ih]

theorem lookupProp_setPropL_other (fs : List (String × JsValue)) (k k1 : String)
    (v : JsValue) (h : k1 ≠ k) : lookupProp (setPropL fs k v) k1 = lookupProp fs k1 := by
  induction fs with
  | nil => simp [setPropL, lookupProp, Ne.symm h]
  | cons kv rest ih =>
    obtain ⟨k2, v2⟩ := kv
    by_cases hk : k2 = k <;> by_cases he : k2 = k1 <;>
      simp_all [setPropL, lookupProp, Ne.symm h]

theorem lookupProp_delPropL_same (fs : List (String × JsValue)) (k : String) :
    lookupProp (delPropL fs k) k = none := by
  induction fs with
  | nil => rfl
  | cons kv rest ih =>
    obtain ⟨k1, v1⟩ := kv
    by_cases hk : k1 = k <;> simp_all [delPropL, List.filter_cons, lookupProp]

theorem lookupProp_delPropL_other (fs : List (String × JsValue)) (k k1 : String)
    (h : k1 ≠ k) : lookupProp (delPropL fs k) k1 = lookupProp fs k1 := by
  induction fs with
  | nil => rfl
  | cons kv rest ih =>
    obtain ⟨k2, v2⟩ := kv
    by_cases hk : k2 = k <;> by_cases he : k2 = k1 <;>
      simp_all [delPropL, List.filter_cons, lookupProp]

/-!
## C5 — the range filter builder contract
-/

theorem getTimeRange_snd (tf : TimeBounds) (c : Cache) :
    getTimeRange tf (getTimeRange tf c).2 = ((getTimeRange tf c).1, (getTimeRange tf c).2) := by
  cases c <;> rfl

/-- Claim C5. — On any placeholder object (and an arbitrary memo state),
`createRangeFilter` returns the object updated so that `gte` is the resolved
`"min"` time bound, `lte` the resolved `"max"` bound (with the memo threaded
through, so both use the same bounds), `format` is `"epoch_millis"`, none of
the `%timefilter%`, `shift`, `unit` keys remain, and — whenever `shift` is
absent — `gte ≤ lte` provided the bounds in effect satisfy `min ≤ max`.
(In the source the function mutates and returns its argument; the pure
embedding returns the updated object.) -/
theorem createRangeFilter_contract :
    ∀ (tf : TimeBounds) (fs : List (String × JsValue)) (c : Cache) (r : JsValue) (c1 : Cache),
      createRangeFilter tf (.vobj fs) c = .ok (r, c1) →
      ∃ g l cg,
        getTimeBound tf (.vobj fs) .wmin c = .ok (g, cg) ∧
        getTimeBound tf (.vobj fs) .wmax cg = .ok (l, c1) ∧
        getProp r "gte" = some (.vnum g) ∧
        getProp r "lte" = some (.vnum l) ∧
        getProp r "format" = some (.vstr "epoch_millis") ∧
        getProp r TIMEFILTER = none ∧
        getProp r "shift" = none ∧
        getProp r "unit" = none ∧
        (lookupProp fs "shift" = none →
          (getTimeRange tf c).1.min ≤ (getTimeRange tf c).1.max → g ≤ l) := by
  intro tf fs c r c1 h
  unfold createRangeFilter at h
  split at h
  · cases h
  next g cg heq1 =>
    split at h
    · cases h
    next l c2 heq2 =>
      cases h
      refine ⟨g, l, cg, heq1, heq2, ?_, ?_, ?_, ?_, ?_, ?_, ?_⟩
      · simp only [setProp, delProp, getProp]
        rw [lookupProp_delPropL_other _ _ _ (by decide),
          lookupProp_delPropL_other _ _ _ (by decide),
          lookupProp_delPropL_other _ _ _ (by decide),
          lookupProp_setPropL_other _ _ _ _ (by decide),
          lookupProp_setPropL_other _ _ _ _ (by decide),
          lookupProp_setPropL_same]
      · simp only [setProp, delProp, getProp]
        rw [lookupProp_delPropL_other _ _ _ (by decide),
          lookupProp_delPropL_other _ _ _ (by decide),
          lookupProp_delPropL_other _ _ _ (by decide),
          lookupProp_setPropL_other _ _ _ _ (by decide),
          lookupProp_setPropL_same]
      · simp only [setProp, delProp, getProp]
        rw [lookupProp_delPropL_other _ _ _ (by decide),
          lookupProp_delPropL_other _ _ _ (by decide),
          lookupProp_delPropL_other _ _ _ (by decide),
          lookupProp_setPropL_same]
      · simp only [setProp, delProp, getProp]
        rw [lookupProp_delPropL_other _ _ _ (by decide),
          lookupProp_delPropL_other _ _ _ (by decide),
          lookupProp_delPropL_same]
      · simp only [setProp, delProp, getProp]
        rw [lookupProp_delPropL_other _ _ _ (by decide),
          lookupProp_delPropL_same]
      · simp only [setProp, delProp, getProp]
        rw [lookupProp_delPropL_same]
      · intro hshift hminmax
        have htp : truthyProp (.vobj fs) "shift" = none := by
          simp [truthyProp, getProp, hshift]
        unfold getTimeBound at heq1 heq2
        rw [htp] at heq1 heq2
        simp only [Except.ok.injEq, Prod.mk.injEq] at heq1 heq2
        obtain ⟨hg, hcg⟩ := heq1
        obtain ⟨hl, _⟩ := heq2
        rw [← hg, ← hl, ← hcg, getTimeRange_snd]
        exact hminmax

/-- Claim C5 witness. — the contract at the concrete placeholder
`{"%timefilter%": true}` with provider bounds `{min: 1000, max: 9000}` and an
empty memo. -/
theorem createRangeFilter_contract_witness :
    ∃ g l cg,
      getTimeBound ⟨1000, 9000⟩ (.vobj [(TIMEFILTER, .vbool true)]) .wmin none = .ok (g, cg) ∧
      getTimeBound ⟨1000, 9000⟩ (.vobj [(TIMEFILTER, .vbool true)]) .wmax cg =
        .ok (l, some ⟨1000, 9000⟩) ∧
      getProp (.vobj [("gte", .vnum 1000), ("lte", .vnum 9000),
        ("format", .vstr "epoch_millis")]) "gte" = some (.vnum g) ∧
      getProp (.vobj [("gte", .vnum 1000), ("lte", .vnum 9000),
        ("format", .vstr "epoch_millis")]) "lte" = some (.vnum l) ∧
      getProp (.vobj [("gte", .vnum 1000), ("lte", .vnum 9000),
        ("format", .vstr "epoch_millis")]) "format" = some (.vstr "epoch_millis") ∧
      getProp (.vobj [("gte", .vnum 1000), ("lte", .vnum 9000),
        ("format", .vstr "epoch_millis")]) TIMEFILTER = none ∧
      getProp (.vobj [("gte", .vnum 1000), ("lte", .vnum 9000),
        ("format", .vstr "epoch_millis")]) "shift" = none ∧
      getProp (.vobj [("gte", .vnum 1000), ("lte", .vnum 9000),
        ("format", .vstr "epoch_millis")]) "unit" = none ∧
      (lookupProp [(TIMEFILTER, .vbool true)] "shift" = none →
        (getTimeRange ⟨1000, 9000⟩ none).1.min ≤ (getTimeRange ⟨1000, 9000⟩ none).1.max →
        g ≤ l) :=
  createRangeFilter_contract ⟨1000, 9000⟩ [(TIMEFILTER, .vbool true)] none
    (.vobj [("gte", .vnum 1000), ("lte", .vnum 9000), ("format", .vstr "epoch_millis")])
    (some ⟨1000, 9000⟩) rfl

/-!
## C7 — shift/unit handling in getTimeBound

The claim quantifies over "every opts in which shift is present"; the code's
guard `if (opts.shift)` is a truthiness test, so a *falsy* shift value (`""`,
`0`, `false`, `null`) is present yet ignored — no `InvalidShift` is thrown
even when it is not numeric.
-/

/-- Claim C7 counterexample. — `opts = {shift: ""}` has a `shift` key whose value
is not numeric, so by the claim `getTimeBound` should fail with
`InvalidShift`; the code ignores the falsy shift and succeeds, returning the
unshifted bound. -/
theorem getTimeBound_falsy_shift_counterexample :
    getTimeBound ⟨0, 100⟩ (.vobj [("shift", .vstr "")]) .wmin none =
      .ok (0, some ⟨0, 100⟩) ∧
    getTimeBound ⟨0, 100⟩ (.vobj [("shift", .vstr "")]) .wmin none ≠
      .error .InvalidShift := by
  refine ⟨rfl, fun h => ?_⟩
  rw [show getTimeBound ⟨0, 100⟩ (.vobj [("shift", .vstr "")]) .wmin none =
    .ok (0, some ⟨0, 100⟩) from rfl] at h
  cases h

/-- Claim C7 amended. — For every `opts` whose `shift` value is *truthy*: a
non-numeric shift fails with `InvalidShift`; otherwise the unit is the truthy
value of `opts.unit` (defaulting to `"d"` when `unit` is absent or falsy), any
unit outside the week/day/hour/minute/second table (full name or single-letter
code, per `unitMultiplier`) fails with `UnknownUnit`, and on success the
result is `bounds[which] + shift * unit_ms` with the memo updated. -/
theorem getTimeBound_truthy_shift :
    ∀ (tf : TimeBounds) (opts : JsValue) (w : Which) (c : Cache) (sv : JsValue),
      truthyProp opts "shift" = some sv →
      ((∀ n : ℚ, sv ≠ .vnum n) → getTimeBound tf opts w c = .error .InvalidShift) ∧
      (∀ n : ℚ, sv = .vnum n →
        ((unitMultiplier (match truthyProp opts "unit" with
            | some uv => uv
            | none => .vstr "d") = none →
          getTimeBound tf opts w c = .error .UnknownUnit) ∧
         (∀ m : ℚ, unitMultiplier (match truthyProp opts "unit" with
            | some uv => uv
            | none => .vstr "d") = some m →
          getTimeBound tf opts w c =
            .ok ((getTimeRange tf c).1.get w + n * m, (getTimeRange tf c).2)))) := by
  intro tf opts w c sv hsv
  constructor
  · intro hnn
    unfold getTimeBound
    rw [hsv]
    cases sv with
    | vnum n => exact absurd rfl (hnn n)
    | vnull => rfl
    | vbool b => rfl
    | vstr s => rfl
    | varr xs => rfl
    | vobj fs => rfl
  · intro n hn
    subst hn
    constructor
    · intro hu
      unfold getTimeBound
      rw [hsv]
      show (match unitMultiplier (match truthyProp opts "unit" with
          | some uv => uv
          | none => JsValue.vstr "d") with
        | some m => Except.ok ((getTimeRange tf c).1.get w + n * m, (getTimeRange tf c).2)
        | none => (.error .UnknownUnit : Except Err (ℚ × Cache))) = .error .UnknownUnit
      rw [hu]
    · intro m hm
      unfold getTimeBound
      rw [hsv]
      show (match unitMultiplier (match truthyProp opts "unit" with
          | some uv => uv
          | none => JsValue.vstr "d") with
        | some m => Except.ok ((getTimeRange tf c).1.get w + n * m, (getTimeRange tf c).2)
        | none => (.error .UnknownUnit : Except Err (ℚ × Cache))) =
        .ok ((getTimeRange tf c).1.get w + n * m, (getTimeRange tf c).2)
      rw [hm]

/-- Claim C7 witness. — The spec §8 scenario: `{shift: -1, unit: "h"}` on bounds
`{min: 1000, max: 9000}` resolves `"min"` to `1000 + (-1) * 3600000`. -/
theorem getTimeBound_truthy_shift_witness :
    getTimeBound ⟨1000, 9000⟩ (.vobj [("shift", .vnum (-1)), ("unit", .vstr "h")])
      .wmin none =
      .ok ((getTimeRange ⟨1000, 9000⟩ none).1.get .wmin + (-1) * (1000 * 60 * 60),
        (getTimeRange ⟨1000, 9000⟩ none).2) :=
  ((getTimeBound_truthy_shift ⟨1000, 9000⟩
      (.vobj [("shift", .vnum (-1)), ("unit", .vstr "h")]) .wmin none
      (.vnum (-1)) (by norm_num [truthyProp, getProp, lookupProp, isTruthy])).2
    (-1) rfl).2 (1000 * 60 * 60) rfl

/-!
## C9 — loader.load routing
-/

/-- Claim C9. — `loaderLoad` resolves via `queryEsData` exactly when the uri is an
object (in the `typeof` sense the source tests — this includes arrays and
`null`) and the options context is the string `"dataflow"`; an object uri with
any other context fails with `UnexpectedUrlObject`; a plain URL string
delegates to the default string loader exactly when the external-URL flag is
true and fails with `ExternalUrlsDisabled` otherwise. -/
theorem loaderLoad_routing :
    ∀ (flag : Bool) (uri ctx : JsValue),
      (loaderLoad flag uri ctx = .ok (.esData uri) ↔
        (jsTypeof uri = "object" ∧ ctx = .vstr "dataflow")) ∧
      (jsTypeof uri = "object" → ctx ≠ .vstr "dataflow" →
        loaderLoad flag uri ctx = .error .UnexpectedUrlObject) ∧
      (∀ s, uri = .vstr s →
        ((loaderLoad flag uri ctx = .ok (.defaultLoad uri) ↔ flag = true) ∧
         (flag = false → loaderLoad flag uri ctx = .error .ExternalUrlsDisabled))) := by
  intro flag uri ctx
  refine ⟨⟨?_, ?_⟩, ?_, ?_⟩
  · intro h
    unfold loaderLoad at h
    by_cases hobj : jsTypeof uri = "object"
    · rw [if_pos hobj] at h
      split at h
      · exact ⟨hobj, rfl⟩
      · cases h
    · rw [if_neg hobj] at h
      split at h
      · cases h
      · cases h
  · rintro ⟨hobj, hctx⟩
    subst hctx
    unfold loaderLoad
    rw [if_pos hobj]
    rfl
  · intro hobj hctx
    unfold loaderLoad
    rw [if_pos hobj]
    split
    · exact absurd rfl hctx
    · rfl
  · intro s hs
    subst hs
    have hobj : ¬ jsTypeof (JsValue.vstr s) = "object" := by simp [jsTypeof]
    constructor
    · constructor
      · intro h
        unfold loaderLoad at h
        rw [if_neg hobj] at h
        split at h
        · cases h
        · rename_i hf
          simp only [Bool.not_eq_false] at hf
          exact hf
      · intro hf
        subst hf
        unfold loaderLoad
        rw [if_neg hobj]
        rfl
    · intro hf
      subst hf
      unfold loaderLoad
      rw [if_neg hobj]
      rfl

/-- Claim C9 witness. — Concrete routing checks: an object with context
`"dataflow"` goes to `queryEsData`; a URL string with the external-URL flag
off fails with `ExternalUrlsDisabled`. -/
theorem loaderLoad_routing_witness :
    loaderLoad false (.vobj [("url", .vstr "idx")]) (.vstr "dataflow") =
      .ok (.esData (.vobj [("url", .vstr "idx")])) ∧
    loaderLoad false (.vstr "https://example.com") (.vstr "dataflow") =
      .error .ExternalUrlsDisabled :=
  ⟨(loaderLoad_routing false (.vobj [("url", .vstr "idx")]) (.vstr "dataflow")).1.2
      ⟨rfl, rfl⟩,
    ((loaderLoad_routing false (.vstr "https://example.com") (.vstr "dataflow")).2.2
      "https://example.com" rfl).2 rfl⟩

/-!
## C4 — the autointerval rule
-/

theorem truthyProp_some {o : JsValue} {k : String} {x : JsValue}
    (h : truthyProp o k = some x) : getProp o k = some x ∧ isTruthy x = true := by
  unfold truthyProp at h
  split at h
  · rename_i v hv
    split at h
    · cases h
      exact ⟨hv, by assumption⟩
    · cases h
  · cases h

theorem isTruthy_of_getProp_some {o : JsValue} {k : String} {x : JsValue}
    (h : getProp o k = some x) : isTruthy o = true := by
  cases o with
  | vobj fs => rfl
  | vnull => cases h
  | vbool b => cases h
  | vnum n => cases h
  | vstr s => cases h
  | varr xs => cases h

/-- Claim C4. — For a mapping field whose key is literally `"interval"` and whose
value carries a truthy `%autointerval%` marker, the walker replaces the field's
value with the string `roundInterval((bounds.max - bounds.min) / count)` —
`count = 50` when the marker value is `true`, the marker value itself when it
is a number — and fails with `InvalidAutoInterval` for any other truthy marker
value.  The rest of the object is processed with the updated memo. -/
theorem walkFields_autointerval :
    ∀ (tf : TimeBounds) (dashCtx : JsValue) (q : Bool) (sub : JsValue)
      (rest : List (String × JsValue)) (c : Cache) (mval : JsValue),
      truthyProp sub AUTOINTERVAL = some mval →
      ((mval = .vbool true →
        walkFields tf dashCtx q (("interval", sub) :: rest) c =
          (walkFields tf dashCtx q rest (getTimeRange tf c).2).map (fun pr =>
            (("interval", .vstr (roundInterval
              (((getTimeRange tf c).1.max - (getTimeRange tf c).1.min) / 50))) :: pr.1,
              pr.2))) ∧
       (∀ n : ℚ, mval = .vnum n →
        walkFields tf dashCtx q (("interval", sub) :: rest) c =
          (walkFields tf dashCtx q rest (getTimeRange tf c).2).map (fun pr =>
            (("interval", .vstr (roundInterval
              (((getTimeRange tf c).1.max - (getTimeRange tf c).1.min) / n))) :: pr.1,
              pr.2))) ∧
       ((mval ≠ .vbool true ∧ ∀ n : ℚ, mval ≠ .vnum n) →
        walkFields tf dashCtx q (("interval", sub) :: rest) c =
          .error .InvalidAutoInterval)) := by
  intro tf dashCtx q sub rest c mval h
  have htr : isTruthy sub = true := isTruthy_of_getProp_some (truthyProp_some h).1
  have hcond : ¬ (isTruthy sub = false) := by simp [htr]
  refine ⟨?_, ?_, ?_⟩
  · intro hm
    subst hm
    simp only [walkFields]
    rw [if_neg hcond]
    rw [if_pos (trivial : True), h]
    show (match walkFields tf dashCtx q rest (getTimeRange tf c).2 with
      | .ok (gs, c2) =>
        (.ok (("interval", .vstr (roundInterval
          (((getTimeRange tf c).1.max - (getTimeRange tf c).1.min) / 50))) :: gs, c2) :
          Except Err (List (String × JsValue) × Cache))
      | .error e => .error e) = _
    cases hw : walkFields tf dashCtx q rest (getTimeRange tf c).2 with
    | ok pr =>
      obtain ⟨gs, c2⟩ := pr
      rfl
    | error e => rfl
  · intro n hm
    subst hm
    simp only [walkFields]
    rw [if_neg hcond]
    rw [if_pos (trivial : True), h]
    show (match walkFields tf dashCtx q rest (getTimeRange tf c).2 with
      | .ok (gs, c2) =>
        (.ok (("interval", .vstr (roundInterval
          (((getTimeRange tf c).1.max - (getTimeRange tf c).1.min) / n))) :: gs, c2) :
          Except Err (List (String × JsValue) × Cache))
      | .error e => .error e) = _
    cases hw : walkFields tf dashCtx q rest (getTimeRange tf c).2 with
    | ok pr =>
      obtain ⟨gs, c2⟩ := pr
      rfl
    | error e => rfl
  · rintro ⟨hnt, hnn⟩
    simp only [walkFields]
    rw [if_neg hcond]
    rw [if_pos (trivial : True), h]
    cases mval with
    | vbool b =>
      cases b with
      | true => exact absurd rfl hnt
      | false => rfl
    | vnum n => exact absurd rfl (hnn n)
    | vnull => rfl
    | vstr s => rfl
    | varr xs => rfl
    | vobj fs => rfl

/-- Claim C4 witness. — The spec §8 scenario: bounds `{min: 1000, max: 9000}` and
`{"interval": {"%autointerval%": true}}` give
`roundInterval((9000 - 1000) / 50) = roundInterval(160) = "100ms"`. -/
theorem walkFields_autointerval_witness :
    walkFields ⟨1000, 9000⟩ .vnull true
      [("interval", .vobj [(AUTOINTERVAL, .vbool true)])] none =
      .ok ([("interval", .vstr "100ms")], some ⟨1000, 9000⟩) := by
  have h := ((walkFields_autointerval ⟨1000, 9000⟩ .vnull true
    (.vobj [(AUTOINTERVAL, .vbool true)]) [] none (.vbool true) rfl).1) rfl
  rw [h]
  norm_num [getTimeRange, Except.map, walkFields, roundInterval]

/-!
## C6 — clause-marker splicing in arrays
-/

/-- Claim C6. — When the walker (with `isQuery = true`) meets an array element that
is strictly one of the two clause-marker strings: if the dashboard context's
matching `bool` field is a sequence `xs` of length `k`, it is spliced in place
of the marker and the cursor skips past the inserted elements (the result is
`xs ++` the processed tail, so processing the marker changes the length
contribution from `1` to `k`, a change of `k - 1`); if it is a single truthy
fragment, the marker is replaced one-for-one; if it is absent or falsy, the
marker is removed and the tail is processed from the same slot (nothing is
skipped, and the length contribution drops from `1` to `0`). -/
theorem walkArray_clause_marker :
    ∀ (tf : TimeBounds) (dashCtx : JsValue) (item : JsValue) (tag : String)
      (rest : List JsValue) (c : Cache),
      clauseMarkerTag item = some tag →
      ((∀ xs, boolClause dashCtx tag = some (.varr xs) →
        walkArray tf dashCtx true (item :: rest) c =
          (walkArray tf dashCtx true rest c).map (fun pr => (xs ++ pr.1, pr.2)) ∧
        (∀ ys c1, walkArray tf dashCtx true rest c = .ok (ys, c1) →
          walkArray tf dashCtx true (item :: rest) c = .ok (xs ++ ys, c1) ∧
          (xs ++ ys).length + 1 = (item :: ys).length + xs.length)) ∧
       (∀ v, boolClause dashCtx tag = some v → (∀ xs, v ≠ .varr xs) →
        walkArray tf dashCtx true (item :: rest) c =
          (walkArray tf dashCtx true rest c).map (fun pr => (v :: pr.1, pr.2))) ∧
       (boolClause dashCtx tag = none →
        walkArray tf dashCtx true (item :: rest) c =
          walkArray tf dashCtx true rest c ∧
        (∀ ys c1, walkArray tf dashCtx true rest c = .ok (ys, c1) →
          walkArray tf dashCtx true (item :: rest) c = .ok (ys, c1) ∧
          ys.length + 1 = (item :: ys).length))) := by
  intro tf dashCtx item tag rest c htag
  have hstep : ∀ w : JsValue,
      (match walkArray tf dashCtx true rest c with
        | .ok (ys, c1) => (.ok (w :: ys, c1) : Except Err (List JsValue × Cache))
        | .error e => .error e) =
      (walkArray tf dashCtx true rest c).map (fun pr => (w :: pr.1, pr.2)) := by
    intro w
    cases hw : walkArray tf dashCtx true rest c with
    | ok pr =>
      obtain ⟨ys, c1⟩ := pr
      rfl
    | error e => rfl
  refine ⟨?_, ?_, ?_⟩
  · intro xs hbc
    have heq : walkArray tf dashCtx true (item :: rest) c =
        (walkArray tf dashCtx true rest c).map (fun pr => (xs ++ pr.1, pr.2)) := by
      simp only [walkArray]
      rw [if_pos (trivial : True), htag]
      show (match boolClause dashCtx tag with
        | some (.varr items) =>
          (match walkArray tf dashCtx true rest c with
            | .ok (ys, c1) => (.ok (items ++ ys, c1) : Except Err (List JsValue × Cache))
            | .error e => .error e)
        | some v =>
          (match walkArray tf dashCtx true rest c with
            | .ok (ys, c1) => .ok (v :: ys, c1)
            | .error e => .error e)
        | none => walkArray tf dashCtx true rest c) = _
      rw [hbc]
      cases hw : walkArray tf dashCtx true rest c with
      | ok pr =>
        obtain ⟨ys, c1⟩ := pr
        rfl
      | error e => rfl
    refine ⟨heq, fun ys c1 hok => ⟨?_, ?_⟩⟩
    · rw [heq, hok]
      rfl
    · simp [List.length_append, List.length_cons]
      omega
  · intro v hbc hnv
    simp only [walkArray]
    rw [if_pos (trivial : True), htag]
    show (match boolClause dashCtx tag with
      | some (.varr items) =>
        (match walkArray tf dashCtx true rest c with
          | .ok (ys, c1) => (.ok (items ++ ys, c1) : Except Err (List JsValue × Cache))
          | .error e => .error e)
      | some v =>
        (match walkArray tf dashCtx true rest c with
          | .ok (ys, c1) => .ok (v :: ys, c1)
          | .error e => .error e)
      | none => walkArray tf dashCtx true rest c) = _
    rw [hbc]
    cases v with
    | varr xs => exact absurd rfl (hnv xs)
    | vnull => exact hstep .vnull
    | vbool b => exact hstep (.vbool b)
    | vnum n => exact hstep (.vnum n)
    | vstr s => exact hstep (.vstr s)
    | vobj fs => exact hstep (.vobj fs)
  · intro hbc
    have heq : walkArray tf dashCtx true (item :: rest) c =
        walkArray tf dashCtx true rest c := by
      simp only [walkArray]
      rw [if_pos (trivial : True), htag]
      show (match boolClause dashCtx tag with
        | some (.varr items) =>
          (match walkArray tf dashCtx true rest c with
            | .ok (ys, c1) => (.ok (items ++ ys, c1) : Except Err (List JsValue × Cache))
            | .error e => .error e)
        | some v =>
          (match walkArray tf dashCtx true rest c with
            | .ok (ys, c1) => .ok (v :: ys, c1)
            | .error e => .error e)
        | none => walkArray tf dashCtx true rest c) = _
      rw [hbc]
    refine ⟨heq, fun ys c1 hok => ⟨heq.trans hok, by simp⟩⟩

/-- Claim C6 witness. — With dashboard context `{bool: {must: [1, 2]}}`, a
`%dashboard_context-must_clause%` marker followed by one ordinary element is
spliced into the two context elements followed by the processed tail, and the
length bookkeeping `k - 1 = 1` holds; with an empty (`none`) clause the marker
is dropped and the tail still processed. -/
theorem walkArray_clause_marker_witness :
    walkArray ⟨0, 1⟩ (.vobj [("bool", .vobj [("must", .varr [.vnum 1, .vnum 2])])])
      true [.vstr MUST_CLAUSE, .vstr "x"] none =
      .ok ([.vnum 1, .vnum 2, .vstr "x"], none) ∧
    ([JsValue.vnum 1, .vnum 2] ++ [JsValue.vstr "x"]).length + 1 =
      (JsValue.vstr MUST_CLAUSE :: [JsValue.vstr "x"]).length +
        [JsValue.vnum 1, .vnum 2].length :=
  ((walkArray_clause_marker ⟨0, 1⟩
      (.vobj [("bool", .vobj [("must", .varr [.vnum 1, .vnum 2])])])
      (.vstr MUST_CLAUSE) "must" [.vstr "x"] none rfl).1
    [.vnum 1, .vnum 2] rfl).2 [.vstr "x"] none rfl

/-!
## Which errors the walker can produce

`queryEsData`'s own error constructors (`ConflictingQuery`,
`InvalidContextQueryField`, `TypeErr`) are never produced by the tree walker;
this is what makes its error conditions "exactly when" statements.
-/

/-- The errors the Context Tree Walker (and the time-bound helpers it calls)
can raise. -/
def walkerErr (e : Err) : Prop :=
  e = .InvalidShift ∨ e = .UnknownUnit ∨ e = .InvalidAutoInterval ∨
    e = .InvalidTimefilterValue

theorem getTimeBound_error {tf : TimeBounds} {opts : JsValue} {w : Which} {c : Cache}
    {e : Err} (h : getTimeBound tf opts w c = .error e) :
    e = .InvalidShift ∨ e = .UnknownUnit := by
  unfold getTimeBound at h
  cases hsp : truthyProp opts "shift" with
  | none =>
    rw [hsp] at h
    cases h
  | some sv =>
    rw [hsp] at h
    cases sv with
    | vnum shift =>
      have h2 : (match unitMultiplier (match truthyProp opts "unit" with
          | some uv => uv
          | none => JsValue.vstr "d") with
        | some m => (Except.ok ((getTimeRange tf c).1.get w + shift * m,
            (getTimeRange tf c).2) : Except Err (ℚ × Cache))
        | none => Except.error Err.UnknownUnit) = Except.error e := h
      cases hu : unitMultiplier (match truthyProp opts "unit" with
          | some uv => uv
          | none => JsValue.vstr "d") with
      | some m =>
        rw [hu] at h2
        cases h2
      | none =>
        rw [hu] at h2
        cases h2
        exact Or.inr rfl
    | vnull =>
      have h3 : Except.error Err.InvalidShift = Except.error e := h
      cases h3
      exact Or.inl rfl
    | vbool b =>
      have h3 : Except.error Err.InvalidShift = Except.error e := h
      cases h3
      exact Or.inl rfl
    | vstr s =>
      have h3 : Except.error Err.InvalidShift = Except.error e := h
      cases h3
      exact Or.inl rfl
    | varr xs =>
      have h3 : Except.error Err.InvalidShift = Except.error e := h
      cases h3
      exact Or.inl rfl
    | vobj fs =>
      have h3 : Except.error Err.InvalidShift = Except.error e := h
      cases h3
      exact Or.inl rfl

theorem createRangeFilter_error {tf : TimeBounds} {obj : JsValue} {c : Cache}
    {e : Err} (h : createRangeFilter tf obj c = .error e) :
    e = .InvalidShift ∨ e = .UnknownUnit := by
  unfold createRangeFilter at h
  split at h
  · rename_i heq
    cases h
    exact getTimeBound_error heq
  · split at h
    · rename_i heq
      cases h
      exact getTimeBound_error heq
    · cases h

/-- Every error the walker produces is one of the four walker errors, proved
for the three mutually recursive entry points by induction on a size bound. -/
theorem walk_error_range (tf : TimeBounds) (dashCtx : JsValue) :
    ∀ N : Nat,
      (∀ v : JsValue, sizeOf v ≤ N → ∀ q c e,
        injectQueryContextVars tf dashCtx q v c = .error e → walkerErr e) ∧
      (∀ xs : List JsValue, sizeOf xs ≤ N → ∀ q c e,
        walkArray tf dashCtx q xs c = .error e → walkerErr e) ∧
      (∀ fs : List (String × JsValue), sizeOf fs ≤ N → ∀ q c e,
        walkFields tf dashCtx q fs c = .error e → walkerErr e) := by
  intro N
  induction N with
  | zero =>
    refine ⟨fun v hv => ?_, fun xs hxs => ?_, fun fs hfs => ?_⟩
    · cases v <;> simp at hv
    · cases xs with
      | nil => intro q c e h; cases h
      | cons x r => simp at hxs
    · cases fs with
      | nil => intro q c e h; cases h
      | cons kv r => simp at hfs
  | succ n ih =>
    obtain ⟨ihV, ihL, ihF⟩ := ih
    refine ⟨fun v hv q c e h => ?_, fun xs hxs q c e h => ?_, fun fs hfs q c e h => ?_⟩
    · cases v with
      | varr xs =>
        have hsz : sizeOf xs ≤ n := by simp at hv; omega
        simp only [injectQueryContextVars] at h
        split at h
        · cases h
        · rename_i heq
          cases h
          exact ihL xs hsz _ _ _ heq
      | vobj fs =>
        have hsz : sizeOf fs ≤ n := by simp at hv; omega
        simp only [injectQueryContextVars] at h
        split at h
        · cases h
        · rename_i heq
          cases h
          exact ihF fs hsz _ _ _ heq
      | vnull => cases h
      | vbool b => cases h
      | vnum m => cases h
      | vstr s => cases h
    · cases xs with
      | nil => cases h
      | cons x rest =>
        have hszx : sizeOf x ≤ n := by simp at hxs; omega
        have hszr : sizeOf rest ≤ n := by simp at hxs; omega
        simp only [walkArray] at h
        split at h
        · split at h
          · split at h
            · cases h
            · rename_i heq
              cases h
              exact ihL rest hszr _ _ _ heq
          · split at h
            · cases h
            · rename_i heq
              cases h
              exact ihL rest hszr _ _ _ heq
          · exact ihL rest hszr _ _ _ h
        · split at h
          · rename_i heq
            cases h
            exact ihV x hszx _ _ _ heq
          · split at h
            · cases h
            · rename_i heq
              cases h
              exact ihL rest hszr _ _ _ heq
    · cases fs with
      | nil => cases h
      | cons kv rest =>
        obtain ⟨k, subObj⟩ := kv
        have hszv : sizeOf subObj ≤ n := by simp at hfs; omega
        have hszr : sizeOf rest ≤ n := by simp at hfs; omega
        simp only [walkFields] at h
        split at h
        · split at h
          · cases h
          · rename_i heq
            cases h
            exact ihF rest hszr _ _ _ heq
        · split at h
          · split at h
            · cases h
            · rename_i heq
              cases h
              exact ihF rest hszr _ _ _ heq
          · split at h
            · cases h
            · rename_i heq
              cases h
              exact ihF rest hszr _ _ _ heq
          · cases h
            exact Or.inr (Or.inr (Or.inl rfl))
          · split at h
            · split at h
              · rename_i heq
                cases h
                rcases getTimeBound_error heq with h1 | h1
                · exact Or.inl h1
                · exact Or.inr (Or.inl h1)
              · split at h
                · cases h
                · rename_i heq2
                  cases h
                  exact ihF rest hszr _ _ _ heq2
            · split at h
              · rename_i heq
                cases h
                rcases getTimeBound_error heq with h1 | h1
                · exact Or.inl h1
                · exact Or.inr (Or.inl h1)
              · split at h
                · cases h
                · rename_i heq2
                  cases h
                  exact ihF rest hszr _ _ _ heq2
            · split at h
              · rename_i heq
                cases h
                rcases createRangeFilter_error heq with h1 | h1
                · exact Or.inl h1
                · exact Or.inr (Or.inl h1)
              · split at h
                · cases h
                · rename_i heq2
                  cases h
                  exact ihF rest hszr _ _ _ heq2
            · split at h
              · rename_i heq
                cases h
                exact ihV subObj hszv _ _ _ heq
              · split at h
                · cases h
                · rename_i heq2
                  cases h
                  exact ihF rest hszr _ _ _ heq2
            · cases h
              exact Or.inr (Or.inr (Or.inr rfl))

/-- Error form of the walker lemma at the top entry point. -/
theorem injectQueryContextVars_error {tf : TimeBounds} {dashCtx v : JsValue}
    {q : Bool} {c : Cache} {e : Err}
    (h : injectQueryContextVars tf dashCtx q v c = .error e) : walkerErr e :=
  (walk_error_range tf dashCtx (sizeOf v)).1 v le_rfl q c e h

/-- Helper `resolveAggsAndSearch` only fails with walker errors. -/
theorem resolveAggsAndSearch_error {tf : TimeBounds} {dashCtx : JsValue}
    {uri : List (String × JsValue)} {body : JsValue} {c : Cache} {e : Err}
    (h : resolveAggsAndSearch tf dashCtx uri body c = .error e) : walkerErr e := by
  unfold resolveAggsAndSearch at h
  split at h
  · cases h
  · split at h
    · rename_i heq
      cases h
      exact injectQueryContextVars_error heq
    · cases h

/-!
## queryEsData helpers
-/

/-- One-step form of `queryEsData` when the `%context_query%` value is the
literal `true`. -/
theorem queryEsData_step_true (tf : TimeBounds) (dashCtx : JsValue)
    (uri : List (String × JsValue)) (c : Cache)
    (hf : truthyProp (.vobj uri) SIMPLE_QUERY = some (.vbool true)) :
    queryEsData tf dashCtx uri c =
      (if isTruthy ((getProp (bodyInit uri) "query").getD .vnull) then
        (.error .ConflictingQuery : Except Err (List (String × JsValue) × Cache))
      else
        resolveAggsAndSearch tf dashCtx (delPropL uri SIMPLE_QUERY)
          (setProp (bodyInit uri) "query" dashCtx) c) := by
  unfold queryEsData
  rw [hf]

/-- One-step form of `queryEsData` when the `%context_query%` value is a
(truthy, hence non-empty) string. -/
theorem queryEsData_step_str (tf : TimeBounds) (dashCtx : JsValue)
    (uri : List (String × JsValue)) (c : Cache) (s : String)
    (hf : truthyProp (.vobj uri) SIMPLE_QUERY = some (.vstr s)) :
    queryEsData tf dashCtx uri c =
      (if isTruthy ((getProp (bodyInit uri) "query").getD .vnull) then
        (.error .ConflictingQuery : Except Err (List (String × JsValue) × Cache))
      else
        match mustArray dashCtx with
        | .error e => .error e
        | .ok must =>
          match createRangeFilter tf (.vobj [(TIMEFILTER, .vbool true)]) c with
          | .error e => .error e
          | .ok (rf, c1) =>
            resolveAggsAndSearch tf dashCtx (delPropL uri SIMPLE_QUERY)
              (setProp (bodyInit uri) "query"
                (setMust dashCtx (.varr (must ++ [.vobj [("range", .vobj [(s, rf)])]]))))
              c1) := by
  unfold queryEsData
  rw [hf]

/-- One-step form of `queryEsData` when the `%context_query%` value is truthy
but neither `true` nor a string. -/
theorem queryEsData_step_other (tf : TimeBounds) (dashCtx : JsValue)
    (uri : List (String × JsValue)) (c : Cache) (field : JsValue)
    (hf : truthyProp (.vobj uri) SIMPLE_QUERY = some field)
    (h1 : field ≠ .vbool true) (h2 : ∀ s, field ≠ .vstr s) :
    queryEsData tf dashCtx uri c =
      (if isTruthy ((getProp (bodyInit uri) "query").getD .vnull) then
        (.error .ConflictingQuery : Except Err (List (String × JsValue) × Cache))
      else .error .InvalidContextQueryField) := by
  unfold queryEsData
  rw [hf]
  cases field with
  | vbool b =>
    cases b with
    | true => exact absurd rfl h1
    | false => rfl
  | vstr s => exact absurd rfl (h2 s)
  | vnull => rfl
  | vnum n => rfl
  | varr xs => rfl
  | vobj fs => rfl

theorem mustArray_error {ctx : JsValue} {e : Err} (h : mustArray ctx = .error e) :
    e = .TypeErr := by
  unfold mustArray at h
  repeat' split at h
  all_goals cases h
  all_goals rfl

theorem mustArray_ok {ctx : JsValue} {xs : List JsValue} (h : mustArray ctx = .ok xs) :
    ∃ b, getProp ctx "bool" = some b ∧ getProp b "must" = some (.varr xs) ∧
      ∃ fs, ctx = .vobj fs := by
  unfold mustArray at h
  split at h
  · cases h
  · rename_i hctx
    split at h
    · cases h
    · rename_i b hb
      split at h
      · cases h
      · split at h
        · cases h
        · rename_i m hm
          split at h
          · cases h
            rename_i hmm
            refine ⟨b, hb, hm ▸ rfl, ?_⟩
            cases hg : ctx with
            | vobj fs => exact ⟨fs, rfl⟩
            | vnull => rw [hg] at hb; cases hb
            | vbool bb => rw [hg] at hb; cases hb
            | vnum n => rw [hg] at hb; cases hb
            | vstr s => rw [hg] at hb; cases hb
            | varr ys => rw [hg] at hb; cases hb
          · cases h

theorem mustArray_typeErr {ctx : JsValue}
    (h : isTruthy ctx = false ∨ getProp ctx "bool" = none ∨
      (∃ b, getProp ctx "bool" = some b ∧ getProp b "must" = none)) :
    mustArray ctx = .error .TypeErr := by
  cases ctx with
  | vnull => rfl
  | vbool b => rfl
  | vnum n => rfl
  | vstr s => rfl
  | varr xs => rfl
  | vobj fs =>
    unfold mustArray
    show (match getProp (.vobj fs) "bool" with
      | none => (.error .TypeErr : Except Err (List JsValue))
      | some b =>
        match b with
        | .vnull => .error .TypeErr
        | _ =>
          match getProp b "must" with
          | none => .error .TypeErr
          | some m =>
            match m with
            | .varr xs => .ok xs
            | _ => .error .TypeErr) = .error .TypeErr
    rcases h with h | h | ⟨b, hb, hm⟩
    · cases h
    · rw [h]
    · rw [hb]
      cases b with
      | vnull => rfl
      | vbool bb => rfl
      | vnum n => rfl
      | vstr s => rfl
      | varr ys => rfl
      | vobj gs =>
        show (match getProp (JsValue.vobj gs) "must" with
          | none => (.error .TypeErr : Except Err (List JsValue))
          | some m =>
            match m with
            | .varr xs => .ok xs
            | _ => .error .TypeErr) = .error .TypeErr
        rw [hm]

theorem walkerErr_ne_CQ {e : Err} (h : walkerErr e) : e ≠ .ConflictingQuery := by
  rcases h with rfl | rfl | rfl | rfl <;> intro hc <;> cases hc

theorem walkerErr_ne_ICQF {e : Err} (h : walkerErr e) :
    e ≠ .InvalidContextQueryField := by
  rcases h with rfl | rfl | rfl | rfl <;> intro hc <;> cases hc

/-!
## C2 — the simple-query shorthand

The claim quantifies over "every uri in which the key `%context_query%` is
present"; the code's guard `if (uri[SIMPLE_QUERY])` is a truthiness test, so a
*falsy* marker value (`false`, `0`, `""`, `null`) is present yet the whole
branch — including the `ConflictingQuery` check — is skipped.
-/

/-- Claim C2 counterexample. — `uri = {"%context_query%": false, body: {query:
{match_all: {}}}}` has the marker key present *and* `body.query` set, so by
the claim `queryEsData` should fail with `ConflictingQuery`; the code treats
the falsy marker as absent and succeeds (returning the request unchanged). -/
theorem queryEsData_falsy_marker_counterexample :
    queryEsData ⟨0, 1000⟩ .vnull
      [(SIMPLE_QUERY, .vbool false),
       ("body", .vobj [("query", .vobj [("match_all", .vobj [])])])] none =
      .ok ([(SIMPLE_QUERY, .vbool false),
        ("body", .vobj [("query", .vobj [("match_all", .vobj [])])])], none) ∧
    ∀ e : Err, queryEsData ⟨0, 1000⟩ .vnull
      [(SIMPLE_QUERY, .vbool false),
       ("body", .vobj [("query", .vobj [("match_all", .vobj [])])])] none ≠
      .error e := by
  refine ⟨rfl, fun e h => ?_⟩
  rw [show queryEsData ⟨0, 1000⟩ .vnull
      [(SIMPLE_QUERY, .vbool false),
       ("body", .vobj [("query", .vobj [("match_all", .vobj [])])])] none =
      .ok ([(SIMPLE_QUERY, .vbool false),
        ("body", .vobj [("query", .vobj [("match_all", .vobj [])])])], none) from rfl] at h
  cases h

/-- Claim C2 amended. — For every uri whose `%context_query%` value is *truthy*:
`queryEsData` fails with `ConflictingQuery` exactly when `body.query` is
truthy; when `body.query` is not truthy it fails with
`InvalidContextQueryField` exactly when the marker value is neither `true`
nor a string (a truthy string is automatically non-empty); and when the
marker is `true` it removes the marker key from the uri and sets `body.query`
to the dashboard-context document (shown both through the resolver equation
and, when the body has no `aggs`, as the final search request). -/
theorem queryEsData_contextQuery_truthy :
    ∀ (tf : TimeBounds) (dashCtx : JsValue) (uri : List (String × JsValue))
      (c : Cache) (field : JsValue),
      truthyProp (.vobj uri) SIMPLE_QUERY = some field →
      ((queryEsData tf dashCtx uri c = .error .ConflictingQuery ↔
        isTruthy ((getProp (bodyInit uri) "query").getD .vnull) = true) ∧
       (isTruthy ((getProp (bodyInit uri) "query").getD .vnull) = false →
        ((queryEsData tf dashCtx uri c = .error .InvalidContextQueryField ↔
          (field ≠ .vbool true ∧ ∀ s, field ≠ .vstr s)) ∧
         (field = .vbool true →
          (queryEsData tf dashCtx uri c =
            resolveAggsAndSearch tf dashCtx (delPropL uri SIMPLE_QUERY)
              (setProp (bodyInit uri) "query" dashCtx) c ∧
           (getProp (setProp (bodyInit uri) "query" dashCtx) "aggs" = none →
            queryEsData tf dashCtx uri c =
              .ok (setPropL (delPropL uri SIMPLE_QUERY) "body"
                (setProp (bodyInit uri) "query" dashCtx), c))))))) := by
  intro tf dashCtx uri c field hf
  constructor
  · constructor
    · intro h
      by_cases hq : isTruthy ((getProp (bodyInit uri) "query").getD .vnull) = true
      · exact hq
      · exfalso
        cases field with
        | vbool b =>
          cases b with
          | true =>
            rw [queryEsData_step_true tf dashCtx uri c hf, if_neg hq] at h
            exact walkerErr_ne_CQ (resolveAggsAndSearch_error h) rfl
          | false =>
            rw [queryEsData_step_other tf dashCtx uri c _ hf (by simp)
              (fun s => by simp), if_neg hq] at h
            cases h
        | vstr s =>
          rw [queryEsData_step_str tf dashCtx uri c s hf, if_neg hq] at h
          split at h
          · rename_i e1 heq
            cases h
            cases mustArray_error heq
          · split at h
            · rename_i e1 heq
              cases h
              rcases createRangeFilter_error heq with h1 | h1 <;> cases h1
            · exact walkerErr_ne_CQ (resolveAggsAndSearch_error h) rfl
        | vnull =>
          rw [queryEsData_step_other tf dashCtx uri c _ hf (by simp)
            (fun s => by simp), if_neg hq] at h
          cases h
        | vnum n =>
          rw [queryEsData_step_other tf dashCtx uri c _ hf (by simp)
            (fun s => by simp), if_neg hq] at h
          cases h
        | varr xs =>
          rw [queryEsData_step_other tf dashCtx uri c _ hf (by simp)
            (fun s => by simp), if_neg hq] at h
          cases h
        | vobj fs =>
          rw [queryEsData_step_other tf dashCtx uri c _ hf (by simp)
            (fun s => by simp), if_neg hq] at h
          cases h
    · intro hq
      cases field with
      | vbool b =>
        cases b with
        | true => rw [queryEsData_step_true tf dashCtx uri c hf, if_pos hq]
        | false =>
          rw [queryEsData_step_other tf dashCtx uri c _ hf (by simp)
            (fun s => by simp), if_pos hq]
      | vstr s => rw [queryEsData_step_str tf dashCtx uri c s hf, if_pos hq]
      | vnull =>
        rw [queryEsData_step_other tf dashCtx uri c _ hf (by simp)
          (fun s => by simp), if_pos hq]
      | vnum n =>
        rw [queryEsData_step_other tf dashCtx uri c _ hf (by simp)
          (fun s => by simp), if_pos hq]
      | varr xs =>
        rw [queryEsData_step_other tf dashCtx uri c _ hf (by simp)
          (fun s => by simp), if_pos hq]
      | vobj fs =>
        rw [queryEsData_step_other tf dashCtx uri c _ hf (by simp)
          (fun s => by simp), if_pos hq]
  · intro hq
    have hq' : ¬ (isTruthy ((getProp (bodyInit uri) "query").getD .vnull) = true) := by
      simp [hq]
    constructor
    · constructor
      · intro h
        cases field with
        | vbool b =>
          cases b with
          | true =>
            rw [queryEsData_step_true tf dashCtx uri c hf, if_neg hq'] at h
            exact absurd rfl (walkerErr_ne_ICQF (resolveAggsAndSearch_error h))
          | false => exact ⟨by simp, fun s => by simp⟩
        | vstr s =>
          exfalso
          rw [queryEsData_step_str tf dashCtx uri c s hf, if_neg hq'] at h
          split at h
          · rename_i e1 heq
            cases h
            cases mustArray_error heq
          · split at h
            · rename_i e1 heq
              cases h
              rcases createRangeFilter_error heq with h1 | h1 <;> cases h1
            · exact walkerErr_ne_ICQF (resolveAggsAndSearch_error h) rfl
        | vnull => exact ⟨by simp, fun s => by simp⟩
        | vnum n => exact ⟨by simp, fun s => by simp⟩
        | varr xs => exact ⟨by simp, fun s => by simp⟩
        | vobj fs => exact ⟨by simp, fun s => by simp⟩
      · rintro ⟨h1, h2⟩
        rw [queryEsData_step_other tf dashCtx uri c field hf h1 h2, if_neg hq']
    · intro hfield
      subst hfield
      have e1 := queryEsData_step_true tf dashCtx uri c hf
      refine ⟨by rw [e1, if_neg hq'], fun haggs => ?_⟩
      rw [e1, if_neg hq']
      unfold resolveAggsAndSearch
      rw [haggs]

/-- Claim C2 witness. — The spec §8 scenario: `uri = {"%context_query%": true}`,
no existing `body.query`, dashboard context `{bool: {must: [{term: {a: 1}}]}}`
— the final `body.query` is exactly the context document. -/
theorem queryEsData_contextQuery_truthy_witness :
    queryEsData ⟨0, 1⟩ (.vobj [("bool", .vobj [("must",
      .varr [.vobj [("term", .vobj [("a", .vnum 1)])]])])])
      [(SIMPLE_QUERY, .vbool true)] none =
      .ok ([("body", .vobj [("query", .vobj [("bool", .vobj [("must",
        .varr [.vobj [("term", .vobj [("a", .vnum 1)])]])])])])], none) :=
  (((queryEsData_contextQuery_truthy ⟨0, 1⟩
      (.vobj [("bool", .vobj [("must", .varr [.vobj [("term", .vobj [("a", .vnum 1)])]])])])
      [(SIMPLE_QUERY, .vbool true)] none (.vbool true) rfl).2 rfl).2 rfl).2 rfl

/-!
## C10 — the unguarded dashboard-context access
-/

/-- Claim C10. — When the `%context_query%` value is a (truthy, hence non-empty)
field-name string and `body.query` is not truthy, the field-name branch
dereferences `dashboardContext().bool.must` without any guard: the call
succeeds only if the context document is a mapping whose `bool.must` is a
sequence (the callee `body.query.bool.must.push` is resolved before the range
filter is built, per JS member-call evaluation order), and for every falsy
context document, or one lacking `bool` or `bool.must`, it fails with the
`TypeError` a JS engine raises there. -/
theorem queryEsData_fieldName_unguarded_context :
    ∀ (tf : TimeBounds) (dashCtx : JsValue) (uri : List (String × JsValue))
      (c : Cache) (s : String),
      truthyProp (.vobj uri) SIMPLE_QUERY = some (.vstr s) →
      isTruthy ((getProp (bodyInit uri) "query").getD .vnull) = false →
      ((∀ r c1, queryEsData tf dashCtx uri c = .ok (r, c1) →
        ∃ fs b xs, dashCtx = .vobj fs ∧ getProp dashCtx "bool" = some b ∧
          getProp b "must" = some (.varr xs)) ∧
       ((isTruthy dashCtx = false ∨ getProp dashCtx "bool" = none ∨
         (∃ b, getProp dashCtx "bool" = some b ∧ getProp b "must" = none)) →
        queryEsData tf dashCtx uri c = .error .TypeErr)) := by
  intro tf dashCtx uri c s hf hq
  have hq' : ¬ (isTruthy ((getProp (bodyInit uri) "query").getD .vnull) = true) := by
    simp [hq]
  have e1 := queryEsData_step_str tf dashCtx uri c s hf
  constructor
  · intro r c1 h
    rw [e1, if_neg hq'] at h
    split at h
    · cases h
    · rename_i must heq
      obtain ⟨b, hb, hm, fs, hfs⟩ := mustArray_ok heq
      exact ⟨fs, b, must, hfs, hb, hm⟩
  · intro hbad
    rw [e1, if_neg hq', mustArray_typeErr hbad]

/-- Claim C10 witness. — A falsy (`null`) dashboard context makes the field-name
branch fail with the unguarded-access `TypeError`. -/
theorem queryEsData_fieldName_unguarded_context_witness :
    queryEsData ⟨0, 1⟩ .vnull [(SIMPLE_QUERY, .vstr "@timestamp")] none =
      .error .TypeErr :=
  (queryEsData_fieldName_unguarded_context ⟨0, 1⟩ .vnull
    [(SIMPLE_QUERY, .vstr "@timestamp")] none "@timestamp" rfl rfl).2 (Or.inl rfl)

/-!
## C1 — the time-bounds memo across queryEsData calls

`_timeBounds` lives in the `createVegaLoader` closure and is never cleared:
once a resolution pass has filled it, every later `queryEsData` call on the
same loader reuses it, regardless of what the time-range provider would now
return.
-/

/-- Claim C1 counterexample. — Two successive `queryEsData` calls on the same
loader, with the same uri `{"%context_query%": "@timestamp"}` and context
`{bool: {must: []}}`.  The first call (empty memo, provider `{0, 1000}`)
resolves with bounds `0/1000` and leaves the memo at `{0, 1000}`.  The second
call starts from that memo while the provider now returns `{5000, 9000}` —
yet its range filter still carries `gte = 0, lte = 1000` and the memo is
unchanged, so the bounds were *not* obtained afresh from the time-range
collaborator as the claim states. -/
theorem queryEsData_stale_cache_counterexample :
    queryEsData ⟨0, 1000⟩ (.vobj [("bool", .vobj [("must", .varr [])])])
      [(SIMPLE_QUERY, .vstr "@timestamp")] none =
      .ok ([("body", .vobj [("query", .vobj [("bool", .vobj [("must", .varr
        [.vobj [("range", .vobj [("@timestamp", .vobj [("gte", .vnum 0),
          ("lte", .vnum 1000), ("format", .vstr "epoch_millis")])])]])])])])],
        some ⟨0, 1000⟩) ∧
    queryEsData ⟨5000, 9000⟩ (.vobj [("bool", .vobj [("must", .varr [])])])
      [(SIMPLE_QUERY, .vstr "@timestamp")] (some ⟨0, 1000⟩) =
      .ok ([("body", .vobj [("query", .vobj [("bool", .vobj [("must", .varr
        [.vobj [("range", .vobj [("@timestamp", .vobj [("gte", .vnum 0),
          ("lte", .vnum 1000), ("format", .vstr "epoch_millis")])])]])])])])],
        some ⟨0, 1000⟩) ∧
    (⟨5000, 9000⟩ : TimeBounds) ≠ ⟨0, 1000⟩ := by
  refine ⟨rfl, rfl, fun h => ?_⟩
  injection h with h1 h2
  exact absurd h1 (by norm_num)

/-- Claim C1 amended. — The memoized `{min, max}` bounds are scoped to the loader,
not to a single resolution pass: the first `queryEsData` call on a loader
fills the memo from the provider, and every later call on the same loader
(here shown for the field-name simple-query shape, which always resolves time
bounds) reuses the memoized value `b` — its result mentions only `b`, not the
provider value `tf2` current at that call. -/
theorem queryEsData_bounds_memoized :
    ∀ (tf1 tf2 : TimeBounds) (dashCtx : JsValue) (s : String) (must : List JsValue),
      s ≠ "" → mustArray dashCtx = .ok must →
      (queryEsData tf1 dashCtx [(SIMPLE_QUERY, .vstr s)] none =
        .ok ([("body", .vobj [("query", setMust dashCtx (.varr (must ++
          [.vobj [("range", .vobj [(s, .vobj [("gte", .vnum tf1.min),
            ("lte", .vnum tf1.max), ("format", .vstr "epoch_millis")])])]])))])], some tf1)) ∧
      (∀ b : TimeBounds,
        queryEsData tf2 dashCtx [(SIMPLE_QUERY, .vstr s)] (some b) =
          .ok ([("body", .vobj [("query", setMust dashCtx (.varr (must ++
            [.vobj [("range", .vobj [(s, .vobj [("gte", .vnum b.min),
              ("lte", .vnum b.max), ("format", .vstr "epoch_millis")])])]])))])], some b)) := by
  intro tf1 tf2 dashCtx s must hs hm
  have hf : truthyProp (.vobj [(SIMPLE_QUERY, .vstr s)]) SIMPLE_QUERY =
      some (.vstr s) := by
    simp [truthyProp, getProp, lookupProp, isTruthy, hs]
  constructor
  · rw [queryEsData_step_str tf1 dashCtx _ none s hf,
      if_neg (fun h => Bool.noConfusion h), hm]
    rfl
  · intro b
    rw [queryEsData_step_str tf2 dashCtx _ (some b) s hf,
      if_neg (fun h => Bool.noConfusion h), hm]
    rfl

/-- Claim C1 amended witness. — The memoized-bounds theorem at the counterexample
input: the second call with memo `{0, 1000}` and provider `{5000, 9000}`
produces a range filter on the memoized bounds. -/
theorem queryEsData_bounds_memoized_witness :
    queryEsData ⟨5000, 9000⟩ (.vobj [("bool", .vobj [("must", .varr [])])])
      [(SIMPLE_QUERY, .vstr "@timestamp")] (some ⟨0, 1000⟩) =
      .ok ([("body", .vobj [("query", setMust
        (.vobj [("bool", .vobj [("must", .varr [])])])
        (.varr ([] ++ [.vobj [("range", .vobj [("@timestamp", .vobj
          [("gte", .vnum (0 : ℚ)), ("lte", .vnum (1000 : ℚ)),
           ("format", .vstr "epoch_millis")])])]])))])], some ⟨0, 1000⟩) :=
  (queryEsData_bounds_memoized ⟨0, 1000⟩ ⟨5000, 9000⟩
    (.vobj [("bool", .vobj [("must", .varr [])])]) "@timestamp" []
    (by decide) rfl).2 ⟨0, 1000⟩

end VegaLoader
